import Mathlib

/-!
Shallow embedding of the `generate` pipeline of jglista/sqlizer
(src/cmd/generate.go) and proofs of the specified properties.

Effectful Go code is embedded by making the external world explicit:
the results of the three SQL round trips become an oracle record
(`DbOracle`), the filesystem becomes an explicit state (`FS`), and the
possible failures of the OS calls and of the `imports.Process` pass
become oracle fields (`WriteOracle`).  A Go run-time panic (index out
of range) is modelled by `Option`: `none` means the function panics.
-/

-- SQL type-name constants, generate.go lines 40-49.
def mssqlVarChar : String := "varchar"

def mssqlNVarChar : String := "nvarchar"

def mssqlChar : String := "char"

def mssqlInt : String := "int"

def mssqlFloat : String := "float"

def mssqlBit : String := "bit"

def mssqlTime : String := "datetime"

def mssqlBinary : String := "binary"

/-- Embedding of the Go map `mssqlTypeMap` (generate.go lines 88-97) as a
lookup function: `none` models a key that is absent from the map. -/
def mssqlTypeMap (dataType : String) : Option String :=
  if dataType = mssqlVarChar then some "string"
  else if dataType = mssqlNVarChar then some "string"
  else if dataType = mssqlChar then some "string"
  else if dataType = mssqlInt then some "int64"
  else if dataType = mssqlFloat then some "float64"
  else if dataType = mssqlBit then some "bool"
  else if dataType = mssqlTime then some "time.Time"
  else if dataType = mssqlBinary then some "[]byte"
  else none

/-- Row type of the database-existence probe, generate.go lines 51-53. -/
structure DatabaseExistsRow where
  DatabaseExists : Bool := false
deriving Repr, DecidableEq

/-- Row type of the table-existence probe, generate.go lines 55-57. -/
structure TableExistsRow where
  TableExists : Bool := false
deriving Repr, DecidableEq

/-- The `Columns` struct, generate.go lines 59-83; one row of
INFORMATION_SCHEMA.COLUMNS.  Field defaults are the Go zero values. -/
structure Columns where
  TableCatalog : String := ""
  TableSchema : String := ""
  TableName : String := ""
  ColumnName : String := ""
  OrdinalPosition : Int := 0
  ColumnDefault : Option String := none
  IsNullable : String := ""
  DataType : String := ""
  CharacterMaximumLength : Option Int := none
  CharacterOctetLength : Option Int := none
  NumericPrecision : Option Int := none
  NumericPrecisionRadix : Option Int := none
  NumericScale : Option Int := none
  DateTimePrecision : Option Int := none
  CharacterSetCatalog : Option String := none
  CharacterSetSchema : Option String := none
  CharacterSetName : Option String := none
  CollationCatalog : Option String := none
  CollationSchema : Option String := none
  CollationName : Option String := none
  DomainCatalog : Option String := none
  DomainSchema : Option String := none
  DomainName : Option String := none
deriving Repr, DecidableEq

/-- The `Attribute` struct, generate.go lines 297-300.  The Go field
`Type` is a reserved word in Lean, hence the guillemets. -/
structure Attribute where
  Name : String := ""
  «Type» : String := ""
deriving Repr, DecidableEq

/-- The `ParsedColumns` struct, generate.go lines 292-295. -/
structure ParsedColumns where
  TableName : String := ""
  Attributes : List Attribute := []
deriving Repr, DecidableEq

/-- Body of the `for _, col := range c` loop of `parseResults`
(generate.go lines 305-313): overwrite the table name, build the
attribute (type left at the zero value "" when the map lookup misses),
append it. -/
def parseStep (pc : ParsedColumns) (col : Columns) : ParsedColumns :=
  let attr : Attribute :=
    match mssqlTypeMap col.DataType with
    | some val => { Name := col.ColumnName, «Type» := val }
    | none => { Name := col.ColumnName }
  { TableName := col.TableName, Attributes := pc.Attributes ++ [attr] }

/-- `parseResults`, generate.go lines 302-316. -/
def parseResults (c : List Columns) : ParsedColumns :=
  c.foldl parseStep {}

/-- The attribute that one `Columns` row yields. -/
def attrOf (col : Columns) : Attribute :=
  { Name := col.ColumnName, «Type» := (mssqlTypeMap col.DataType).getD "" }

/-- `checkDatabaseExists`, generate.go lines 129-154.  The input is the
outcome of the `db.Select` call (error, or the slice it filled).  The Go
code indexes `dbExists[0]` without a length check; `none` models the
index-out-of-range panic on an empty slice. -/
def checkDatabaseExists (sel : Except String (List DatabaseExistsRow)) :
    Option (Except String Bool) :=
  match sel with
  | .error err => some (.error err)
  | .ok dbExists =>
    match dbExists with
    | [] => none
    | r :: _ => if !r.DatabaseExists then some (.ok false) else some (.ok true)

/-- `checkTableExists`, generate.go lines 156-187, same shape: the Go
code indexes `tableExists[0]` without a length check. -/
def checkTableExists (sel : Except String (List TableExistsRow)) :
    Option (Except String Bool) :=
  match sel with
  | .error err => some (.error err)
  | .ok tableExists =>
    match tableExists with
    | [] => none
    | r :: _ => if !r.TableExists then some (.ok false) else some (.ok true)

/-- Observable database-side events of one `readTable` run. -/
inductive DbEvent where
  | connect
  | queryDbExists
  | queryTableExists
  | queryColumns
  | close
deriving Repr, DecidableEq

/-- Oracle for `readTable`: the outcome of `sqlx.Connect` and of each of
the three `db.Select` round trips, should they be issued. -/
structure DbOracle where
  connect : Except String Unit := .ok ()
  dbExistsRows : Except String (List DatabaseExistsRow) := .ok []
  tableExistsRows : Except String (List TableExistsRow) := .ok []
  columnsRows : Except String (List Columns) := .ok []

/-- `readTable`, generate.go lines 189-232.  Returns the Go result
paired with the trace of database events, or `none` when a probe
panics.  `defer db.Close()` is registered right after a successful
connect, so `close` is the last event on every path that returns after
connecting; on a connect failure the function returns before the defer
is registered. -/
def readTable (o : DbOracle) :
    Option (Except String (List Columns) × List DbEvent) :=
  match o.connect with
  | .error e => some (.error e, [.connect])
  | .ok _ =>
    match checkDatabaseExists o.dbExistsRows with
    | none => none
    | some (.error e) => some (.error e, [.connect, .queryDbExists, .close])
    | some (.ok false) =>
      some (.error "databaseG does not exist", [.connect, .queryDbExists, .close])
    | some (.ok true) =>
      match checkTableExists o.tableExistsRows with
      | none => none
      | some (.error e) =>
        some (.error e, [.connect, .queryDbExists, .queryTableExists, .close])
      | some (.ok false) =>
        some (.error "table does not exist",
          [.connect, .queryDbExists, .queryTableExists, .close])
      | some (.ok true) =>
        match o.columnsRows with
        | .error e =>
          some (.error e,
            [.connect, .queryDbExists, .queryTableExists, .queryColumns, .close])
        | .ok rows =>
          some (.ok rows,
            [.connect, .queryDbExists, .queryTableExists, .queryColumns, .close])

/-- Filesystem state: the set of directories and the files (path paired
with byte content, bytes as naturals). -/
structure FS where
  dirs : List String := []
  files : List (String × List Nat) := []
deriving Repr, DecidableEq

/-- `os.Mkdir`: fails with EEXIST when the directory already exists
(filesystem unchanged); `injectedFail` models any other OS failure. -/
def osMkdir (dir : String) (injectedFail : Option String) (fs : FS) :
    Except String FS :=
  if dir ∈ fs.dirs then .error ("mkdir " ++ dir ++ ": file exists")
  else
    match injectedFail with
    | some e => .error e
    | none => .ok { fs with dirs := dir :: fs.dirs }

/-- `os.WriteFile`: on success the new content shadows any previous one;
an injected failure leaves the filesystem unchanged. -/
def osWriteFile (p : String) (bytes : List Nat) (injectedFail : Option String)
    (fs : FS) : Except String FS :=
  match injectedFail with
  | some e => .error e
  | none => .ok { fs with files := (p, bytes) :: fs.files }

/-- `ioutil.ReadFile`: returns the current content of the file. -/
def osReadFile (p : String) (injectedFail : Option String) (fs : FS) :
    Except String (List Nat) :=
  match injectedFail with
  | some e => .error e
  | none =>
    match fs.files.lookup p with
    | some bytes => .ok bytes
    | none => .error ("open " ++ p ++ ": no such file or directory")

/-- ASCII model of Go `strings.ToLower`, as used on table names:
character-wise lower-casing.  (`String.toLower` itself is defined by
well-founded recursion over byte positions and does not reduce in the
kernel; this structural character-list version computes, and agrees
with it.) -/
def goToLower (s : String) : String := String.mk (s.data.map Char.toLower)

/-- Oracle for `writeTypes`: injected OS failures and the behaviour of
the external `imports.Process` pass. -/
structure WriteOracle where
  mkdirFail : Option String := none
  writeFail : Option String := none
  readFail : Option String := none
  process : List Nat → Except String (List Nat) := fun b => .ok b
  finalWriteFail : Option String := none

/-- `writeTypes`, generate.go lines 257-290.  Faithful to the source,
including the slip at line 283: the error of the final
`os.WriteFile(filePath, formatted, os.ModePerm)` is not assigned to
`err`, so the `if err != nil` that follows tests the stale `nil` value
and the function returns success whether or not that write failed. -/
def writeTypes (table : String) (fileBytes : List Nat) (o : WriteOracle)
    (fs : FS) : Except String Unit × FS :=
  let tLower := goToLower table
  match osMkdir tLower o.mkdirFail fs with
  | .error e => (.error e, fs)
  | .ok fs1 =>
    let filePath := tLower ++ "/" ++ tLower ++ ".go"
    match osWriteFile filePath fileBytes o.writeFail fs1 with
    | .error e => (.error e, fs1)
    | .ok fs2 =>
      match osReadFile filePath o.readFail fs2 with
      | .error e => (.error e, fs2)
      | .ok genFileBytes =>
        match o.process genFileBytes with
        | .error e => (.error e, fs2)
        | .ok formatted =>
          match osWriteFile filePath formatted o.finalWriteFail fs2 with
          | .error _ => (.ok (), fs2)
          | .ok fs3 => (.ok (), fs3)

-- Rows used by the C2 counterexample: same table, ordinal positions 1 and 2.
def rowOrd1 : Columns :=
  { TableName := "T", ColumnName := "a", OrdinalPosition := 1, DataType := "int" }

def rowOrd2 : Columns :=
  { TableName := "T", ColumnName := "b", OrdinalPosition := 2, DataType := "varchar" }

theorem parseStep_eq (pc : ParsedColumns) (col : Columns) :
    parseStep pc col =
      { TableName := col.TableName, Attributes := pc.Attributes ++ [attrOf col] } := by
  cases h : mssqlTypeMap col.DataType <;> simp [parseStep, attrOf, h]

theorem foldl_parseStep_attrs (c : List Columns) (pc : ParsedColumns) :
    (c.foldl parseStep pc).Attributes = pc.Attributes ++ c.map attrOf := by
  induction c generalizing pc with
  | nil => simp
  | cons hd tl ih => simp [List.foldl_cons, parseStep_eq, ih]

theorem foldl_parseStep_tableName (c : List Columns) (pc : ParsedColumns) :
    (c.foldl parseStep pc).TableName =
      (c.getLast?.map Columns.TableName).getD pc.TableName := by
  induction c generalizing pc with
  | nil => simp
  | cons hd tl ih =>
    cases tl with
    | nil => simp [parseStep_eq]
    | cons h2 t2 =>
      rw [List.foldl_cons, ih, List.getLast?_cons_cons,
        List.getLast?_eq_getLast (h2 :: t2) (by simp)]
      simp

theorem parseResults_attrs (c : List Columns) :
    (parseResults c).Attributes = c.map attrOf := by
  simpa using foldl_parseStep_attrs c {}

/-- C1: `parseResults` produces one attribute per input row; the
attribute carries the row's column name; when the row's DataType is one
of the eight mapped names the attribute's type is exactly the mapped
output type (varchar, nvarchar, char to string; int to int64; float to
float64; bit to bool; datetime to time.Time; binary to []byte); for any
other DataType the attribute's type is the empty string, with the name
still set and no error raised. -/
theorem parseResults_type_mapping (c : List Columns) (i : Nat) (col : Columns)
    (h : c.get? i = some col) :
    (parseResults c).Attributes.length = c.length ∧
    ∃ attr, (parseResults c).Attributes.get? i = some attr ∧
      attr.Name = col.ColumnName ∧
      (col.DataType = "varchar" → attr.«Type» = "string") ∧
      (col.DataType = "nvarchar" → attr.«Type» = "string") ∧
      (col.DataType = "char" → attr.«Type» = "string") ∧
      (col.DataType = "int" → attr.«Type» = "int64") ∧
      (col.DataType = "float" → attr.«Type» = "float64") ∧
      (col.DataType = "bit" → attr.«Type» = "bool") ∧
      (col.DataType = "datetime" → attr.«Type» = "time.Time") ∧
      (col.DataType = "binary" → attr.«Type» = "[]byte") ∧
      (col.DataType ∉ (["varchar", "nvarchar", "char", "int", "float", "bit",
          "datetime", "binary"] : List String) → attr.«Type» = "") := by
  have hA := parseResults_attrs c
  refine ⟨by simp [hA], attrOf col, ?_, rfl, ?_, ?_, ?_, ?_, ?_, ?_, ?_, ?_, ?_⟩
  · rw [hA, List.get?_map, h]; rfl
  · intro hdt; simp only [attrOf]; rw [hdt]; rfl
  · intro hdt; simp only [attrOf]; rw [hdt]; rfl
  · intro hdt; simp only [attrOf]; rw [hdt]; rfl
  · intro hdt; simp only [attrOf]; rw [hdt]; rfl
  · intro hdt; simp only [attrOf]; rw [hdt]; rfl
  · intro hdt; simp only [attrOf]; rw [hdt]; rfl
  · intro hdt; simp only [attrOf]; rw [hdt]; rfl
  · intro hdt; simp only [attrOf]; rw [hdt]; rfl
  · intro hnot
    simp only [List.mem_cons, List.not_mem_nil, or_false, not_or] at hnot
    obtain ⟨n1, n2, n3, n4, n5, n6, n7, n8⟩ := hnot
    simp [attrOf, mssqlTypeMap, mssqlVarChar, mssqlNVarChar, mssqlChar,
      mssqlInt, mssqlFloat, mssqlBit, mssqlTime, mssqlBinary,
      n1, n2, n3, n4, n5, n6, n7, n8]

/-- Witness for C1 at a one-row list whose DataType is "int". -/
theorem parseResults_type_mapping_witness :
    ([({ ColumnName := "Id", DataType := "int" } : Columns)]).get? 0 =
        some ({ ColumnName := "Id", DataType := "int" } : Columns) ∧
    (parseResults [({ ColumnName := "Id", DataType := "int" } : Columns)]).Attributes.length =
      [({ ColumnName := "Id", DataType := "int" } : Columns)].length :=
  ⟨rfl, (parseResults_type_mapping [{ ColumnName := "Id", DataType := "int" }] 0
      { ColumnName := "Id", DataType := "int" } rfl).1⟩

/-- C2 counterexample: `parseResults` performs no sorting.  Feeding the
two rows of one table in the permuted order (ordinal 2, then ordinal 1)
yields the attributes in that same permuted order, which differs from
the ordinal-ascending order, so the attribute sequence is not strictly
increasing by OrdinalPosition for every permuted input. -/
theorem parseResults_not_sorted_by_ordinal :
    rowOrd1.OrdinalPosition < rowOrd2.OrdinalPosition ∧
    (parseResults [rowOrd2, rowOrd1]).Attributes = [attrOf rowOrd2, attrOf rowOrd1] ∧
    [attrOf rowOrd2, attrOf rowOrd1] ≠ [attrOf rowOrd1, attrOf rowOrd2] := by
  refine ⟨by decide, by rw [parseResults_attrs]; rfl, by decide⟩

/-- C2 amended: `parseResults` emits attributes in the input rows'
order — attribute i is derived from row i — so the sequence is strictly
increasing by OrdinalPosition exactly when the input rows already are;
no reordering happens. -/
theorem parseResults_preserves_input_order (c : List Columns) :
    (parseResults c).Attributes = c.map attrOf ∧
    (parseResults c).Attributes.length = c.length := by
  refine ⟨parseResults_attrs c, ?_⟩
  rw [parseResults_attrs c]
  exact List.length_map c attrOf

/-- C9: for a non-empty input, the GeneratedType's table name is the
table name of the last processed row (the loop overwrites it on every
iteration). -/
theorem parseResults_tableName_last (c : List Columns) (h : c ≠ []) :
    (parseResults c).TableName = (c.getLast h).TableName := by
  rw [parseResults, foldl_parseStep_tableName, List.getLast?_eq_getLast c h]
  rfl

/-- Witness for C9 at a one-row list. -/
theorem parseResults_tableName_last_witness :
    ([({ TableName := "Users" } : Columns)] ≠ []) ∧
    (parseResults [({ TableName := "Users" } : Columns)]).TableName =
      (([({ TableName := "Users" } : Columns)]).getLast (by simp)).TableName :=
  ⟨by simp, parseResults_tableName_last [{ TableName := "Users" }] (by simp)⟩

/-- C3: when the connection opens and the database-existence probe
reports that the database does not exist, `readTable` returns the
database-not-found error (the source spells its message "databaseG does
not exist") and issues neither the table-existence probe nor the column
query. -/
theorem readTable_databaseNotFound (o : DbOracle) (rest : List DatabaseExistsRow)
    (hc : o.connect = .ok ())
    (hd : o.dbExistsRows = .ok ({ DatabaseExists := false } :: rest)) :
    ∃ evs, readTable o = some (.error "databaseG does not exist", evs) ∧
      DbEvent.queryTableExists ∉ evs ∧ DbEvent.queryColumns ∉ evs := by
  refine ⟨[.connect, .queryDbExists, .close], ?_, by decide, by decide⟩
  unfold readTable
  rw [hc, hd]
  rfl

/-- Witness for C3: the database probe answers false. -/
theorem readTable_databaseNotFound_witness :
    (({ dbExistsRows := .ok [{ DatabaseExists := false }] } : DbOracle).connect
        = .ok ()) ∧
    ∃ evs, readTable { dbExistsRows := .ok [{ DatabaseExists := false }] } =
        some (.error "databaseG does not exist", evs) ∧
      DbEvent.queryTableExists ∉ evs ∧ DbEvent.queryColumns ∉ evs :=
  ⟨rfl, readTable_databaseNotFound
    { dbExistsRows := .ok [{ DatabaseExists := false }] } [] rfl rfl⟩

/-- C4: when the connection opens, the database exists, and the
table-existence probe reports that the table does not exist, `readTable`
returns the table-not-found error and never issues the column query. -/
theorem readTable_tableNotFound (o : DbOracle) (drest : List DatabaseExistsRow)
    (trest : List TableExistsRow) (hc : o.connect = .ok ())
    (hd : o.dbExistsRows = .ok ({ DatabaseExists := true } :: drest))
    (ht : o.tableExistsRows = .ok ({ TableExists := false } :: trest)) :
    ∃ evs, readTable o = some (.error "table does not exist", evs) ∧
      DbEvent.queryColumns ∉ evs := by
  refine ⟨[.connect, .queryDbExists, .queryTableExists, .close], ?_, by decide⟩
  unfold readTable
  rw [hc, hd, ht]
  rfl

/-- Witness for C4: database exists, table does not. -/
theorem readTable_tableNotFound_witness :
    (({ dbExistsRows := .ok [{ DatabaseExists := true }]
        tableExistsRows := .ok [{ TableExists := false }] } : DbOracle).connect
        = .ok ()) ∧
    ∃ evs, readTable
        { dbExistsRows := .ok [{ DatabaseExists := true }]
          tableExistsRows := .ok [{ TableExists := false }] } =
        some (.error "table does not exist", evs) ∧
      DbEvent.queryColumns ∉ evs :=
  ⟨rfl, readTable_tableNotFound
    { dbExistsRows := .ok [{ DatabaseExists := true }]
      tableExistsRows := .ok [{ TableExists := false }] } [] [] rfl rfl rfl⟩

/-- C8: whenever the connection opens successfully and `readTable`
returns (it does not panic), the connection is closed, and it is the
last database event before the return — on the success path and on
every error path alike (`defer db.Close()`). -/
theorem readTable_closes_connection (o : DbOracle)
    (r : Except String (List Columns)) (evs : List DbEvent)
    (hc : o.connect = .ok ()) (h : readTable o = some (r, evs)) :
    DbEvent.close ∈ evs ∧ evs.getLast? = some DbEvent.close := by
  unfold readTable at h
  rw [hc] at h
  repeat' split at h
  all_goals simp_all
  all_goals obtain ⟨rfl, rfl⟩ := h
  all_goals decide

/-- Witness for C8 on the database-not-found return path. -/
theorem readTable_closes_connection_witness :
    readTable { dbExistsRows := .ok [{ DatabaseExists := false }] } =
      some (.error "databaseG does not exist",
        [.connect, .queryDbExists, .close]) ∧
    (DbEvent.close ∈ [DbEvent.connect, DbEvent.queryDbExists, DbEvent.close] ∧
      [DbEvent.connect, DbEvent.queryDbExists, DbEvent.close].getLast?
        = some DbEvent.close) :=
  ⟨rfl, readTable_closes_connection
    { dbExistsRows := .ok [{ DatabaseExists := false }] }
    (.error "databaseG does not exist")
    [.connect, .queryDbExists, .close] rfl rfl⟩

/-- C10: both existence probes read element 0 of their result slice
without a length check: on a successful probe query returning zero rows
they panic (modelled by `none`), and they are total — return `some` —
exactly when the query fails or returns at least one row. -/
theorem checkExists_requires_nonempty_result :
    checkDatabaseExists (.ok []) = none ∧
    checkTableExists (.ok []) = none ∧
    (∀ (r : DatabaseExistsRow) (rest : List DatabaseExistsRow),
      (checkDatabaseExists (.ok (r :: rest))).isSome = true) ∧
    (∀ (r : TableExistsRow) (rest : List TableExistsRow),
      (checkTableExists (.ok (r :: rest))).isSome = true) ∧
    (∀ e : String, (checkDatabaseExists (.error e)).isSome = true ∧
      (checkTableExists (.error e)).isSome = true) := by
  refine ⟨rfl, rfl, ?_, ?_, fun e => ⟨rfl, rfl⟩⟩
  · intro r rest
    cases hb : r.DatabaseExists <;> simp [checkDatabaseExists, hb]
  · intro r rest
    cases hb : r.TableExists <;> simp [checkTableExists, hb]

/-- C5: when a directory named as the lower-cased table name already
exists, `writeTypes` fails with the directory-exists error from
`os.Mkdir` and the filesystem is returned unchanged: no file is written
and the pre-existing directory's contents are untouched. -/
theorem writeTypes_dirExists (table : String) (fileBytes : List Nat)
    (o : WriteOracle) (fs : FS) (h : goToLower table ∈ fs.dirs) :
    writeTypes table fileBytes o fs =
      (.error ("mkdir " ++ goToLower table ++ ": file exists"), fs) := by
  unfold writeTypes osMkdir
  simp [h]

/-- Witness for C5: directory "users" pre-exists for table "Users". -/
theorem writeTypes_dirExists_witness :
    (goToLower "Users" ∈ ({ dirs := ["users"] } : FS).dirs) ∧
    writeTypes "Users" [1, 2] {} { dirs := ["users"] } =
      (.error ("mkdir " ++ goToLower "Users" ++ ": file exists"),
        { dirs := ["users"] }) :=
  ⟨by decide, writeTypes_dirExists "Users" [1, 2] {} { dirs := ["users"] }
    (by decide)⟩

/-- C6: when steps 1-3 of `writeTypes` succeed and the
import-normalization pass (step 4, `imports.Process`) fails, the failure
is returned, but the file written in step 3 is still on disk with its
step-3 contents: no rollback, no deletion. -/
theorem writeTypes_no_rollback (table : String) (fileBytes : List Nat)
    (o : WriteOracle) (fs : FS) (e : String)
    (h1 : goToLower table ∉ fs.dirs) (h2 : o.mkdirFail = none)
    (h3 : o.writeFail = none) (h4 : o.readFail = none)
    (h5 : o.process fileBytes = .error e) :
    ∃ fs2 : FS, writeTypes table fileBytes o fs = (.error e, fs2) ∧
      fs2.files.lookup (goToLower table ++ "/" ++ goToLower table ++ ".go") =
        some fileBytes := by
  refine ⟨?_, ?_, ?_⟩
  · exact { fs with
      dirs := goToLower table :: fs.dirs
      files := (goToLower table ++ "/" ++ goToLower table ++ ".go", fileBytes)
        :: fs.files }
  · unfold writeTypes osMkdir osWriteFile osReadFile
    simp [h1, h2, h3, h4, List.lookup, h5]
  · simp [List.lookup]

/-- Witness for C6: empty filesystem, a process pass that fails. -/
theorem writeTypes_no_rollback_witness :
    (goToLower "Users" ∉ (({} : FS)).dirs) ∧
    ∃ fs2 : FS, writeTypes "Users" [1, 2]
        { process := fun _ => .error "imports boom" } {} = (.error "imports boom", fs2) ∧
      fs2.files.lookup (goToLower "Users" ++ "/" ++ goToLower "Users" ++ ".go") =
        some [1, 2] :=
  ⟨by decide, writeTypes_no_rollback "Users" [1, 2]
    { process := fun _ => .error "imports boom" } {} "imports boom"
    (by decide) rfl rfl rfl rfl⟩

/-- C7 (divergence witness): the error of the final in-place rewrite is
silently discarded.  At generate.go line 283 the result of
`os.WriteFile(filePath, formatted, os.ModePerm)` is not assigned to
`err`, so the `if err != nil` that follows tests the stale `nil` from
`imports.Process` and `writeTypes` returns success: here every earlier
step succeeds, the final write fails, and the run still reports `ok`,
contradicting the policy that every error is surfaced to the CLI layer
as a terminal failure. -/
theorem writeTypes_final_write_error_discarded :
    (writeTypes "users" [7] { finalWriteFail := some "permission denied" }
      {}).1 = .ok () := rfl
